import Mathlib

/-!
Shallow embedding of `extension.py` (AddonGrab): a CLI tool that downloads
Chrome CRX / Firefox XPI extension packages, strips the CRX3 header, and
writes the result to disk.

Bytes are modelled as `List Nat`, strings as Lean `String`.  Network calls
(`urllib.request.urlopen`) are modelled by per-attempt oracles.  The model
of `urlopen` follows its documented contract: the default opener delivers
only 2xx responses to the caller; any other final status makes `urlopen`
raise `urllib.error.HTTPError`, which is a subclass of `urllib.error.URLError`,
itself a subclass of `OSError`.  Transport-level failures (DNS, refused
connection, timeout) raise `URLError`.  Fallible code returns `Except Exc`.
-/

namespace AddonGrab

/-- Python exception classes that `extension.py` can raise or catch.
`httpError` is `urllib.error.HTTPError` (an instance of `URLError` and of
`OSError`); `urlError` is a transport-level `urllib.error.URLError` / `OSError`;
`jsonError` is `json.JSONDecodeError` (a `ValueError`, not an `OSError`);
`runtimeError` and `valueError` are `RuntimeError` / `ValueError`. -/
inductive Exc where
  | httpError (status : Nat)
  | urlError (msg : String)
  | jsonError (msg : String)
  | runtimeError (msg : String)
  | valueError (msg : String)
deriving DecidableEq, Repr

/-- Whether an exception is caught by `except (URLError, OSError)`
(the clause used in `download_crx_with_retry` and `download_xpi_with_retry`).
`HTTPError` is a subclass of `URLError`, so it is caught. -/
def Exc.isOSErrorFamily : Exc → Bool
  | .httpError _ => true
  | .urlError _ => true
  | _ => false

/-- Whether an exception is caught by
`except (URLError, OSError, json.JSONDecodeError)` (the clause used in both
loops of `fetch_firefox_addon_info`). -/
def Exc.isFirefoxApiCaught : Exc → Bool
  | .httpError _ => true
  | .urlError _ => true
  | .jsonError _ => true
  | _ => false

/-- The string interpolated for an exception by an f-string such as
`f"Failed to download after 3 attempts: {e}"`.  For `HTTPError`,
Python renders `HTTP Error <status>: <reason>`; we keep the status and
elide the reason phrase. -/
def Exc.str : Exc → String
  | .httpError s => "HTTP Error " ++ toString s
  | .urlError m => m
  | .jsonError m => m
  | .runtimeError m => m
  | .valueError m => m

/-- Outcome of one `urlopen` call with body type `β`.
`ok` delivers a response object to the `with`-block; per the default-opener
contract its status is always in the 2xx range (the carried proof).
`httpError` models `urlopen` raising `HTTPError` for a non-2xx final status;
`urlError` models a transport-level `URLError` / `OSError`. -/
inductive Urlopen (β : Type) where
  | ok (status : Nat) (body : β) (h2xx : 200 ≤ status ∧ status < 300)
  | httpError (status : Nat)
  | urlError (msg : String)

/-- A delivered response with status 200. -/
def ok200 {β : Type} (body : β) : Urlopen β :=
  .ok 200 body (by omega)

/-- Decidable equality for `Except`, needed to `decide` concrete traces. -/
instance exceptDecEq {ε α : Type} [DecidableEq ε] [DecidableEq α] :
    DecidableEq (Except ε α) := fun x y =>
  match x, y with
  | .ok a, .ok b =>
    if h : a = b then isTrue (by rw [h]) else isFalse (by simp [h])
  | .error a, .error b =>
    if h : a = b then isTrue (by rw [h]) else isFalse (by simp [h])
  | .ok _, .error _ => isFalse (by simp)
  | .error _, .ok _ => isFalse (by simp)

/-- Result of one of the retrying download functions: the returned value or
propagated exception, the list of `time.sleep` durations performed (in
seconds, in order), and the number of `urlopen` attempts made. -/
structure Trace (α : Type) where
  result : Except Exc α
  sleeps : List Nat
  calls : Nat
deriving DecidableEq, Repr

/-! ## Package Normalizer: `crx_to_zip` (lines 191-200) -/

/-- The 4-byte ASCII magic `C r 2 4`. -/
def cr24magic : List Nat := [0x43, 0x72, 0x32, 0x34]

/-- `struct.unpack("<I", crx_data[8:12])[0]`: bytes 8..12 read as a
little-endian 32-bit unsigned integer. -/
def headerLen (crx_data : List Nat) : Nat :=
  crx_data.getD 8 0 + 256 * crx_data.getD 9 0 +
    65536 * crx_data.getD 10 0 + 16777216 * crx_data.getD 11 0

/-- `crx_to_zip` (lines 191-200): strip the CRX3 header and return the
embedded ZIP.  The magic check (`crx_data[:4]`, i.e. `take 4`) comes first,
then the 12-byte minimum-length check, then the header-length bound.
`header_len` in the source is the unpacked value plus 12; it is inlined here. -/
def crx_to_zip (crx_data : List Nat) : Except Exc (List Nat) :=
  if crx_data.take 4 ≠ cr24magic then
    .error (.valueError "Invalid CRX file: missing Cr24 header")
  else if crx_data.length < 12 then
    .error (.valueError "Invalid CRX file: file too short")
  else if headerLen crx_data + 12 > crx_data.length then
    .error (.valueError "Invalid CRX file: header length exceeds file size")
  else
    .ok (crx_data.drop (headerLen crx_data + 12))

/-! ## Fetcher: `download_crx` / `download_crx_with_retry` (lines 31-56) -/

/-- Body of `download_crx` (lines 31-41) applied to the outcome of its single
`urlopen` call.  A delivered response with status 404 would raise
`RuntimeError("Extension not found or invalid ID.")`, any other non-200
status `RuntimeError(f"HTTP {resp.status}: {resp.reason}")` (reason elided);
a 200 response returns `resp.read()`. -/
def download_crx (net1 : Urlopen (List Nat)) : Except Exc (List Nat) :=
  match net1 with
  | .httpError s => .error (.httpError s)
  | .urlError m => .error (.urlError m)
  | .ok status body _ =>
    if status = 404 then .error (.runtimeError "Extension not found or invalid ID.")
    else if status ≠ 200 then .error (.runtimeError ("HTTP " ++ toString status))
    else .ok body

/-- The `while attempt < 3` loop of `download_crx_with_retry` (lines 43-56).
`fuel` counts the remaining loop iterations (the loop guard: each failed
iteration increments `attempt` by one, so `fuel = 3 - attempt`); exhausting
it corresponds to falling out of the loop to
`raise RuntimeError("Unreachable")` (line 56).  A caught failure increments
`attempt`; at `attempt == 3` the loop raises
`RuntimeError(f"Failed to download after 3 attempts: {e}")`, otherwise it
sleeps `2 ** (attempt - 1)` seconds (line 54) and retries. -/
def crxRetryAux (net : Nat → Urlopen (List Nat)) :
    Nat → Nat → List Nat → Nat → Trace (List Nat)
  | 0, _, sleeps, calls => ⟨.error (.runtimeError "Unreachable"), sleeps, calls⟩
  | fuel + 1, attempt, sleeps, calls =>
    match download_crx (net attempt) with
    | .ok b => ⟨.ok b, sleeps, calls + 1⟩
    | .error e =>
      if e.isOSErrorFamily then
        if attempt + 1 = 3 then
          ⟨.error (.runtimeError ("Failed to download after 3 attempts: " ++ e.str)),
            sleeps, calls + 1⟩
        else
          crxRetryAux net fuel (attempt + 1) (sleeps ++ [2 ^ (attempt + 1 - 1)]) (calls + 1)
      else ⟨.error e, sleeps, calls + 1⟩

/-- `download_crx_with_retry` (lines 43-56), over a per-attempt network
oracle `net` (attempt `k` uses `net k`). -/
def download_crx_with_retry (net : Nat → Urlopen (List Nat)) : Trace (List Nat) :=
  crxRetryAux net 3 0 [] 0

/-! ## Fetcher: `download_xpi_with_retry` (lines 156-189) -/

/-- Body of one attempt of `download_xpi_with_retry` applied to the outcome
of its `urlopen` call: a non-200 status raises
`RuntimeError(f"Download failed: HTTP {resp.status}")`; otherwise the body is
read in 8 KiB chunks (with optional progress reporting, purely observational)
and returned whole. -/
def download_xpi_once (net1 : Urlopen (List Nat)) : Except Exc (List Nat) :=
  match net1 with
  | .httpError s => .error (.httpError s)
  | .urlError m => .error (.urlError m)
  | .ok status body _ =>
    if status ≠ 200 then .error (.runtimeError ("Download failed: HTTP " ++ toString status))
    else .ok body

/-- The `while attempt < 3` loop of `download_xpi_with_retry` (lines 156-189).
Identical retry structure to `crxRetryAux`, but the final error is
`RuntimeError(f"Failed to download XPI: {e}")` and the sleep (line 188) is
`2 ** attempt` with the already-incremented counter, i.e. `2 ^ (attempt + 1)`
seconds after the failure of attempt `attempt + 1`. -/
def xpiRetryAux (net : Nat → Urlopen (List Nat)) :
    Nat → Nat → List Nat → Nat → Trace (List Nat)
  | 0, _, sleeps, calls => ⟨.error (.runtimeError "Unreachable"), sleeps, calls⟩
  | fuel + 1, attempt, sleeps, calls =>
    match download_xpi_once (net attempt) with
    | .ok b => ⟨.ok b, sleeps, calls + 1⟩
    | .error e =>
      if e.isOSErrorFamily then
        if attempt + 1 = 3 then
          ⟨.error (.runtimeError ("Failed to download XPI: " ++ e.str)), sleeps, calls + 1⟩
        else
          xpiRetryAux net fuel (attempt + 1) (sleeps ++ [2 ^ (attempt + 1)]) (calls + 1)
      else ⟨.error e, sleeps, calls + 1⟩

/-- `download_xpi_with_retry` (lines 156-189), over a per-attempt oracle. -/
def download_xpi_with_retry (net : Nat → Urlopen (List Nat)) : Trace (List Nat) :=
  xpiRetryAux net 3 0 [] 0

/-! ## Version Resolver: `fetch_firefox_addon_info` (lines 85-154)

The JSON response bodies are modelled structurally.  A `.get(key)` that is
missing, `None`, or falsy (Python `if not x:` also rejects empty dicts and
empty strings) is modelled as `Option.none`. -/

/-- A `file` object of the addons.mozilla.org API: `file_info.get('url')`. -/
structure FxFile where
  url : Option String
deriving DecidableEq, Repr

/-- A version object: `ver.get('version')` and `ver.get('file')`.  The same
shape serves `current_version` in the addon-lookup response (whose `version`
field the code never reads). -/
structure FxVersionEntry where
  version : Option String
  file : Option FxFile
deriving DecidableEq, Repr

/-- Body of a response from `.../addon/{id}/`: either text that makes
`json.loads` raise `JSONDecodeError`, or a parsed object with an optional
`current_version`. -/
inductive FxLatestBody where
  | badJson (msg : String)
  | json (current_version : Option FxVersionEntry)
deriving DecidableEq, Repr

/-- Body of a response from `.../addon/{id}/versions/`: bad JSON, or a parsed
object whose `results` list holds version entries (`.get('results', [])`). -/
inductive FxVersionsBody where
  | badJson (msg : String)
  | json (results : List FxVersionEntry)
deriving DecidableEq, Repr

/-- Lines 104-114: parse the addon-lookup body.  `json.loads` failure raises
`JSONDecodeError` (caught by the loop); a missing/falsy `current_version`,
`file` or `url` raises a `RuntimeError` (not caught, propagates). -/
def parseLatestBody : FxLatestBody → Except Exc String
  | .badJson m => .error (.jsonError m)
  | .json none => .error (.runtimeError "No current version found for addon.")
  | .json (some cv) =>
    match cv.file with
    | none => .error (.runtimeError "No file found for addon.")
    | some f =>
      match f.url with
      | none => .error (.runtimeError "No download URL found.")
      | some u => .ok u

/-- Lines 140-146: linear scan of `results` for an entry whose `version`
equals the requested one and which has a truthy `file` and `url`; entries
that match the version but lack `file` or `url` are passed over. -/
def scanVersions (target : String) : List FxVersionEntry → Option String
  | [] => none
  | e :: rest =>
    if e.version = some target then
      match e.file with
      | some f =>
        match f.url with
        | some u => some u
        | none => scanVersions target rest
      | none => scanVersions target rest
    else scanVersions target rest

/-- Lines 139-147: parse the versions-listing body; a failed scan raises
`RuntimeError(f"Version {version} not found for addon.")` (not caught). -/
def parseVersionsBody (target : String) : FxVersionsBody → Except Exc String
  | .badJson m => .error (.jsonError m)
  | .json results =>
    match scanVersions target results with
    | some u => .ok u
    | none => .error (.runtimeError ("Version " ++ target ++ " not found for addon."))

/-- One `while attempt < 3` loop of `fetch_firefox_addon_info`; the two
branches (lines 91-121 and 126-154) share this structure and differ only in
the parse step and two message strings, passed as parameters.
For a delivered response: status 404 raises a `RuntimeError` (not caught),
status 429 sleeps 5 seconds, increments `attempt`, and `continue`s (re-testing
the loop guard, so a third 429 falls out of the loop to the trailing
`raise RuntimeError("Unreachable")`); any other non-200 status raises
`RuntimeError(apiErrMsg ++ status)` (not caught); a 200 response is parsed.
Exceptions caught by `except (URLError, OSError, json.JSONDecodeError)`
increment `attempt`; at `attempt == 3` the loop raises
`RuntimeError(failMsg ++ e)`, otherwise it sleeps `2 ** attempt` seconds with
the already-incremented counter.  `fuel = 3 - attempt` models the loop guard. -/
def fxApiAux {β : Type} (net : Nat → Urlopen β) (parse : β → Except Exc String)
    (notFoundMsg apiErrMsg failMsg : String) :
    Nat → Nat → List Nat → Nat → Trace String
  | 0, _, sleeps, calls => ⟨.error (.runtimeError "Unreachable"), sleeps, calls⟩
  | fuel + 1, attempt, sleeps, calls =>
    match net attempt with
    | .httpError s =>
      if attempt + 1 = 3 then
        ⟨.error (.runtimeError (failMsg ++ Exc.str (.httpError s))), sleeps, calls + 1⟩
      else
        fxApiAux net parse notFoundMsg apiErrMsg failMsg fuel (attempt + 1)
          (sleeps ++ [2 ^ (attempt + 1)]) (calls + 1)
    | .urlError m =>
      if attempt + 1 = 3 then
        ⟨.error (.runtimeError (failMsg ++ m)), sleeps, calls + 1⟩
      else
        fxApiAux net parse notFoundMsg apiErrMsg failMsg fuel (attempt + 1)
          (sleeps ++ [2 ^ (attempt + 1)]) (calls + 1)
    | .ok status body _ =>
      if status = 404 then ⟨.error (.runtimeError notFoundMsg), sleeps, calls + 1⟩
      else if status = 429 then
        fxApiAux net parse notFoundMsg apiErrMsg failMsg fuel (attempt + 1)
          (sleeps ++ [5]) (calls + 1)
      else if status ≠ 200 then
        ⟨.error (.runtimeError (apiErrMsg ++ toString status)), sleeps, calls + 1⟩
      else
        match parse body with
        | .ok url => ⟨.ok url, sleeps, calls + 1⟩
        | .error e =>
          if e.isFirefoxApiCaught then
            if attempt + 1 = 3 then
              ⟨.error (.runtimeError (failMsg ++ e.str)), sleeps, calls + 1⟩
            else
              fxApiAux net parse notFoundMsg apiErrMsg failMsg fuel (attempt + 1)
                (sleeps ++ [2 ^ (attempt + 1)]) (calls + 1)
          else ⟨.error e, sleeps, calls + 1⟩

/-- `fetch_firefox_addon_info` (lines 85-154): dispatch on
`version is None` to the addon-lookup loop or the versions-listing loop,
each over its own per-attempt oracle. -/
def fetch_firefox_addon_info (version : Option String)
    (netLatest : Nat → Urlopen FxLatestBody)
    (netVersions : Nat → Urlopen FxVersionsBody) : Trace String :=
  match version with
  | none =>
    fxApiAux netLatest parseLatestBody "Firefox addon not found or invalid ID."
      "API error: HTTP " "Failed to fetch addon info: " 3 0 [] 0
  | some v =>
    fxApiAux netVersions (parseVersionsBody v) "Firefox addon not found or invalid ID."
      "Versions API error: HTTP " "Failed to fetch versions: " 3 0 [] 0

/-! ## Identifier Validator: `validate_extension_id` (lines 58-68)

The regexes are evaluated with `re.match` semantics: anchored at the start,
and `$` (no `re.MULTILINE`) matches at the end of the string or just before
a single newline at the end of the string.  Each pattern here has the form
`^body$` (for the Firefox slug, an alternation of two such branches), so a
match is: `body` matches the whole string, or `body` matches the whole
string minus one trailing newline. -/

/-- One character of `[a-z0-9]`. -/
def isLowerAlnum (c : Char) : Bool :=
  ('a' ≤ c && c ≤ 'z') || ('0' ≤ c && c ≤ '9')

/-- One character of `[a-f0-9]`. -/
def isHexLower (c : Char) : Bool :=
  ('a' ≤ c && c ≤ 'f') || ('0' ≤ c && c ≤ '9')

/-- One character of `[a-zA-Z0-9]`. -/
def isAlnumAny (c : Char) : Bool :=
  ('a' ≤ c && c ≤ 'z') || ('A' ≤ c && c ≤ 'Z') || ('0' ≤ c && c ≤ '9')

/-- One character of `[a-zA-Z0-9_.@-]`. -/
def isSlugInner (c : Char) : Bool :=
  isAlnumAny c || c == '_' || c == '.' || c == '@' || c == '-'

/-- Python `$` (without `re.MULTILINE`) applied to an anchored pattern
`^body$`: the body must match the whole string or the whole string minus a
single trailing newline. -/
def reAtDollar (body : List Char → Bool) (cs : List Char) : Bool :=
  body cs || (cs.getLastD ' ' == '\n' && body cs.dropLast)

/-- Body of the Chrome pattern `[a-z0-9]{32}` against a whole candidate. -/
def chromeBody (cs : List Char) : Bool :=
  cs.length == 32 && cs.all isLowerAlnum

/-- Consume exactly `n` characters of `[a-f0-9]`, returning the rest. -/
def hexRun : Nat → List Char → Option (List Char)
  | 0, rest => some rest
  | _ + 1, [] => none
  | n + 1, c :: rest => if isHexLower c then hexRun n rest else none

/-- Consume one expected literal character, returning the rest. -/
def expectChar (c : Char) : List Char → Option (List Char)
  | [] => none
  | d :: rest => if d == c then some rest else none

/-- Body of the Firefox GUID pattern
`\x7b[a-f0-9]{8}-[a-f0-9]{4}-[a-f0-9]{4}-[a-f0-9]{4}-[a-f0-9]{12}\x7d`
(braces escaped here; the pattern is the usual 8-4-4-4-12 GUID in braces). -/
def guidBody (cs : List Char) : Bool :=
  ((((((((((expectChar '\x7b' cs).bind (hexRun 8)).bind
    (expectChar '-')).bind (hexRun 4)).bind
    (expectChar '-')).bind (hexRun 4)).bind
    (expectChar '-')).bind (hexRun 4)).bind
    (expectChar '-')).bind (hexRun 12)).bind (expectChar '\x7d') == some []

/-- Body of the Firefox slug alternation
`[a-zA-Z0-9][a-zA-Z0-9_.@-]*[a-zA-Z0-9]` or a single `[a-zA-Z0-9]`,
matched against a whole candidate (backtracking collapses to: first and last
characters alphanumeric, interior characters in the inner class). -/
def slugBody : List Char → Bool
  | [] => false
  | [c] => isAlnumAny c
  | c :: rest =>
    isAlnumAny c && rest.dropLast.all isSlugInner && isAlnumAny (rest.getLastD ' ')

/-- `validate_extension_id` (lines 58-68): Chrome matches
`^[a-z0-9]{32}$`; Firefox matches the braced-GUID pattern or the slug
pattern; any other platform is rejected. -/
def validate_extension_id (ext_id : String) (platform : String) : Bool :=
  if platform = "chrome" then
    reAtDollar chromeBody ext_id.data
  else if platform = "firefox" then
    reAtDollar guidBody ext_id.data || reAtDollar slugBody ext_id.data
  else false

/-! ## Batch Driver: `main` (lines 203-304)

Effects are made explicit: the batch file's raw lines come from a
`readBatch` oracle (`none` models `FileNotFoundError`), the network from
per-identifier `IdOracle`s, the filesystem from an initial list of existing
paths.  `main` returns the process exit code (0 for the implicit fall-off
at the end of `main`) together with the ordered log of `write_bytes` calls.
Argument parsing, logging, and printing are out of scope (treated as
observational), as is `get_latest_chrome_version`, which cannot fail (any
error falls back to a hardcoded version string) and whose result only
parameterizes the request URL. -/

/-- The parsed CLI arguments of `extension.py` (lines 204-214). -/
structure Args where
  extension_id : Option String
  output : Option String
  version : Option String
  platform : String
  force : Bool
  batch : Option String
  continue_on_error : Bool
  list_versions : Bool

/-- Python truthiness for an optional string: `None` and `""` are falsy
(used by `if args.batch:`, `elif args.extension_id:`, `if args.output`,
`version if version else ...`). -/
def pyTruthy : Option String → Option String
  | none => none
  | some s => if s = "" then none else some s

/-- Characters removed by Python `str.strip()` (ASCII whitespace; the
unicode cases do not arise here). -/
def isPySpace (c : Char) : Bool :=
  c == ' ' || c == '\t' || c == '\n' || c == '\r' || c == '\x0b' || c == '\x0c'

/-- Python `str.strip()`. -/
def pystrip (s : String) : String :=
  ⟨((s.data.dropWhile isPySpace).reverse.dropWhile isPySpace).reverse⟩

/-- Python `str.split(",")` for a nonempty string (the batch value is only
split when truthy): splits on every comma, keeping empty pieces. -/
def splitOnCommaAux : List Char → List Char → List String
  | [], acc => [⟨acc.reverse⟩]
  | c :: rest, acc =>
    if c == ',' then ⟨acc.reverse⟩ :: splitOnCommaAux rest []
    else splitOnCommaAux rest (c :: acc)

/-- Python `args.batch.split(",")`. -/
def splitOnComma (s : String) : List String :=
  splitOnCommaAux s.data []

/-- Lines 219-233: expand the identifier list.  A truthy `--batch` value
containing a comma is split literally; otherwise it names a file whose lines
are read (`.error 1` models the `FileNotFoundError` handler's `sys.exit(1)`);
with no batch, a truthy positional id is used; otherwise the usage error
exits 1 (note: this runs before the `--list-versions` check, so
`--list-versions` without an id also exits 1 here).  Each candidate is
`strip`ped and dropped if empty. -/
def parseIds (args : Args) (readBatch : String → Option (List String)) :
    Except Nat (List String) :=
  match pyTruthy args.batch with
  | some b =>
    if b.data.contains ',' then
      .ok (((splitOnComma b).map pystrip).filter (fun s => s != ""))
    else
      match readBatch b with
      | none => .error 1
      | some rawLines => .ok ((rawLines.map pystrip).filter (fun s => s != ""))
  | none =>
    match pyTruthy args.extension_id with
    | some e => .ok [pystrip e]
    | none => .error 1

/-- Network effects available to one identifier's pipeline. -/
structure IdOracle where
  crxNet : Nat → Urlopen (List Nat)
  fxLatest : Nat → Urlopen FxLatestBody
  fxVersions : Nat → Urlopen FxVersionsBody
  xpiNet : Nat → Urlopen (List Nat)

/-- All effects of one `main` run. -/
structure World where
  fs0 : List String
  readBatch : String → Option (List String)
  lv : Urlopen FxVersionsBody
  oracles : Nat → IdOracle

/-- Exit code and ordered `write_bytes` log of a `main` run. -/
structure MainResult where
  exitCode : Nat
  written : List (String × List Nat)
deriving DecidableEq, Repr

/-- The single (un-retried) versions request of list-versions mode
(lines 245-252): non-200 delivered statuses raise, bad JSON raises, and the
version strings are collected. -/
def listVersionsFetch (lv : Urlopen FxVersionsBody) :
    Except Exc (List (Option String)) :=
  match lv with
  | .httpError s => .error (.httpError s)
  | .urlError m => .error (.urlError m)
  | .ok status body _ =>
    if status ≠ 200 then .error (.runtimeError ("API error: HTTP " ++ toString status))
    else
      match body with
      | .badJson m => .error (.jsonError m)
      | .json results => .ok (results.map (fun v => v.version))

/-- Lines 242-257 after the single-id check: the Firefox fetch-and-print is
wrapped in `except Exception as e: print(...)`, and both the success path and
the handler fall through to the unconditional `sys.exit(0)`; Chrome just
prints a notice and exits 0. -/
def listVersionsBranch (platform : String) (lv : Urlopen FxVersionsBody) : Nat :=
  if platform == "firefox" then
    match listVersionsFetch lv with
    | .ok _ => 0
    | .error _ => 0
  else 0

/-- Lines 285-297: the per-identifier resolve→fetch→normalize pipeline inside
the `try` block, up to but excluding `out_file.write_bytes`.  For Chrome the
version resolution (line 287) cannot fail and is elided; for Firefox the
resolved URL selects the XPI download, whose oracle stands for that URL's
transfer. -/
def runPipeline (args : Args) (o : IdOracle) : Except Exc (List Nat) :=
  if args.platform == "chrome" then
    match (download_crx_with_retry o.crxNet).result with
    | .error e => .error e
    | .ok crx => crx_to_zip crx
  else
    match (fetch_firefox_addon_info args.version o.fxLatest o.fxVersions).result with
    | .error e => .error e
    | .ok _url => (download_xpi_with_retry o.xpiNet).result

/-- Line 275: `out_file = Path(args.output) if args.output else
Path(f"{ext_id}.zip")` — the explicit output path, when truthy, is used for
every identifier (there is no single-identifier restriction). -/
def outPathOf (output : Option String) (ext_id : String) : String :=
  match pyTruthy output with
  | some p => p
  | none => ext_id ++ ".zip"

/-- State threaded through the download loop: existing filesystem paths
(initial ones plus files written earlier in the same run, both visible to
`out_file.exists()`) and the ordered write log. -/
structure LoopState where
  fs : List String
  written : List (String × List Nat)
deriving DecidableEq, Repr

/-- One iteration of the download loop (lines 260-304) for `ext_id` with the
pipeline outcome `pipeline`: validation failure and existing-output failure
skip (`continue-on-error`) or exit 1; a pipeline exception likewise; on
success the bytes are written to the output path as the final step.
The second component is `some code` when the run aborts via `sys.exit`. -/
def downloadStep (args : Args) (pipeline : Except Exc (List Nat))
    (ext_id : String) (st : LoopState) : LoopState × Option Nat :=
  if !(validate_extension_id ext_id args.platform) then
    if args.continue_on_error then (st, none) else (st, some 1)
  else
    let out_file := outPathOf args.output ext_id
    if st.fs.contains out_file && !args.force then
      if args.continue_on_error then (st, none) else (st, some 1)
    else
      match pipeline with
      | .ok bytes => (⟨out_file :: st.fs, st.written ++ [(out_file, bytes)]⟩, none)
      | .error _ => if args.continue_on_error then (st, none) else (st, some 1)

/-- The download loop over the identifier list, in input order, `i` being the
identifier's index (used only to select its oracle).  Falling off the end of
`main` exits 0. -/
def mainLoop (args : Args) (oracles : Nat → IdOracle) :
    List String → Nat → LoopState → MainResult
  | [], _, st => ⟨0, st.written⟩
  | ext_id :: rest, i, st =>
    match downloadStep args (runPipeline args (oracles i)) ext_id st with
    | (st1, none) => mainLoop args oracles rest (i + 1) st1
    | (st1, some c) => ⟨c, st1.written⟩

/-- `main` (lines 203-304): parse identifiers, handle `--list-versions`
(which requires exactly one identifier and always exits 0 once past that
check), then run the download loop. -/
def main (args : Args) (w : World) : MainResult :=
  match parseIds args w.readBatch with
  | .error c => ⟨c, []⟩
  | .ok ids =>
    if args.list_versions then
      if ids.length ≠ 1 then ⟨1, []⟩
      else ⟨listVersionsBranch args.platform w.lv, []⟩
    else mainLoop args w.oracles ids 0 ⟨w.fs0, []⟩

/-! ## Concrete inputs used by witnesses and counterexamples -/

/-- A synthetic CRX: magic, version field 3, header-length field 0, then a
3-byte payload. -/
def c1synth : List Nat := [0x43, 0x72, 0x32, 0x34, 3, 0, 0, 0, 0, 0, 0, 0, 9, 9, 9]

/-- A network that answers HTTP 404 on every attempt. -/
def net404 : Nat → Urlopen (List Nat) := fun _ => .httpError 404

/-- A network whose every attempt fails at transport level. -/
def netDownX : Nat → Urlopen (List Nat) := fun _ => .urlError "connection refused"

/-- A network that fails at transport level twice, then delivers `[7, 7]`. -/
def netTwoFails : Nat → Urlopen (List Nat)
  | 0 => .urlError "refused0"
  | 1 => .urlError "refused1"
  | _ => ok200 [7, 7]

/-- Per-attempt transport-error messages for the always-failing network. -/
def downMsg : Nat → String := fun k => "down " ++ toString k

/-- A network failing every attempt with `downMsg k` on attempt `k`. -/
def netDownK : Nat → Urlopen (List Nat) := fun k => .urlError (downMsg k)

/-! ## C1: `crx_to_zip` returns the suffix at offset `12 + length` -/

/-- C1: for every byte sequence beginning with the `Cr24` magic, of length at
least 12, whose little-endian 32-bit length field at bytes 8..12 satisfies
`12 + length ≤ total`, `crx_to_zip` returns exactly the suffix starting at
offset `12 + length`. -/
theorem crx_to_zip_suffix (crx : List Nat) (hm : crx.take 4 = cr24magic)
    (hl : 12 ≤ crx.length) (hh : headerLen crx + 12 ≤ crx.length) :
    crx_to_zip crx = .ok (crx.drop (headerLen crx + 12)) := by
  unfold crx_to_zip
  rw [if_neg (by simp [hm]), if_neg (by omega), if_neg (by omega)]

/-- C1 witness: a synthetic header with length field 0 over the payload
`[9, 9, 9]` satisfies the hypotheses, and the output is exactly the payload. -/
theorem crx_to_zip_suffix_witness :
    c1synth.take 4 = cr24magic ∧ 12 ≤ c1synth.length ∧
      headerLen c1synth + 12 ≤ c1synth.length ∧
      crx_to_zip c1synth = .ok [9, 9, 9] :=
  ⟨by decide, by decide, by decide,
    crx_to_zip_suffix c1synth (by decide) (by decide) (by decide)⟩

/-! ## C3: HTTP 404 and the retry policy -/

/-- C3: a 404 response makes `urlopen` raise `HTTPError`, which
`except (URLError, OSError)` catches (HTTPError is a URLError subclass), so
`download_crx_with_retry` retries a 404 three times and then raises the
3-attempts `RuntimeError` — it never raises the immediate
`Extension not found or invalid ID.` error that the dead
`resp.status == 404` branch (and the spec) intends. -/
theorem crx_404_retried :
    download_crx_with_retry net404 =
      ⟨.error (.runtimeError "Failed to download after 3 attempts: HTTP Error 404"),
        [1, 2], 3⟩ ∧
      (download_crx_with_retry net404).result ≠
        .error (.runtimeError "Extension not found or invalid ID.") := by
  refine ⟨by decide, by decide⟩

/-! ## C4: attempt counts of the retrying fetchers -/

/-- C4: for both `download_crx_with_retry` and `download_xpi_with_retry`: if
the fetch fails twice with transport errors and then succeeds, the result is
the success after exactly 3 attempts with no error surfaced; if it fails on
every attempt, exactly 3 attempts are made and the surfaced error message
references the last underlying cause. -/
theorem retry_attempt_counts (m0 m1 : String) (mk : Nat → String)
    (body bodyx : List Nat) (netA netB netC netD : Nat → Urlopen (List Nat))
    (hA0 : netA 0 = .urlError m0) (hA1 : netA 1 = .urlError m1)
    (hA2 : netA 2 = ok200 body)
    (hB : ∀ k, netB k = .urlError (mk k))
    (hC0 : netC 0 = .urlError m0) (hC1 : netC 1 = .urlError m1)
    (hC2 : netC 2 = ok200 bodyx)
    (hD : ∀ k, netD k = .urlError (mk k)) :
    download_crx_with_retry netA = ⟨.ok body, [1, 2], 3⟩ ∧
      download_crx_with_retry netB =
        ⟨.error (.runtimeError ("Failed to download after 3 attempts: " ++ mk 2)),
          [1, 2], 3⟩ ∧
      download_xpi_with_retry netC = ⟨.ok bodyx, [2, 4], 3⟩ ∧
      download_xpi_with_retry netD =
        ⟨.error (.runtimeError ("Failed to download XPI: " ++ mk 2)), [2, 4], 3⟩ := by
  refine ⟨?_, ?_, ?_, ?_⟩
  · simp [download_crx_with_retry, crxRetryAux, download_crx, ok200,
      hA0, hA1, hA2, Exc.isOSErrorFamily]
  · simp [download_crx_with_retry, crxRetryAux, download_crx,
      hB 0, hB 1, hB 2, Exc.isOSErrorFamily, Exc.str]
  · simp [download_xpi_with_retry, xpiRetryAux, download_xpi_once, ok200,
      hC0, hC1, hC2, Exc.isOSErrorFamily]
  · simp [download_xpi_with_retry, xpiRetryAux, download_xpi_once,
      hD 0, hD 1, hD 2, Exc.isOSErrorFamily, Exc.str]

/-- C4 witness: the concrete fail-fail-succeed network yields the body after
3 attempts, and the always-failing network yields the 3-attempts error
naming the last cause. -/
theorem retry_attempt_counts_witness :
    download_crx_with_retry netTwoFails = ⟨.ok [7, 7], [1, 2], 3⟩ ∧
      download_crx_with_retry netDownK =
        ⟨.error (.runtimeError "Failed to download after 3 attempts: down 2"),
          [1, 2], 3⟩ ∧
      download_xpi_with_retry netTwoFails = ⟨.ok [7, 7], [2, 4], 3⟩ ∧
      download_xpi_with_retry netDownK =
        ⟨.error (.runtimeError "Failed to download XPI: down 2"), [2, 4], 3⟩ :=
  retry_attempt_counts "refused0" "refused1" downMsg [7, 7] [7, 7]
    netTwoFails netDownK netTwoFails netDownK
    rfl rfl rfl (fun _ => rfl) rfl rfl rfl (fun _ => rfl)

/-! ## C5: backoff schedules -/

/-- C5 counterexample: the Firefox XPI download with transport failures on
every attempt sleeps 2 then 4 seconds — not the `2^(k-1)` schedule
(1 second then 2 seconds) the claim asserts uniformly. -/
theorem xpi_backoff_counterexample :
    (download_xpi_with_retry netDownX).sleeps = [2, 4] ∧
      (download_xpi_with_retry netDownX).sleeps ≠ [2 ^ (1 - 1), 2 ^ (2 - 1)] := by
  refine ⟨by decide, by decide⟩

/-- C5 amended: the Chrome CRX download sleeps `2^(k-1)` seconds after failed
attempt `k` (1 s, then 2 s), but the Firefox XPI download sleeps `2^k`
seconds (2 s, then 4 s); the schedule is not uniform across the two. -/
theorem backoff_schedules (netc netx : Nat → Urlopen (List Nat)) :
    (download_crx_with_retry netc).sleeps ∈ [([] : List Nat), [1], [1, 2]] ∧
      (download_xpi_with_retry netx).sleeps ∈ [([] : List Nat), [2], [2, 4]] := by
  constructor
  · unfold download_crx_with_retry
    rcases h0 : download_crx (netc 0) with e0 | b0
    · cases hc0 : e0.isOSErrorFamily
      · simp [crxRetryAux, h0, hc0]
      · rcases h1 : download_crx (netc 1) with e1 | b1
        · cases hc1 : e1.isOSErrorFamily
          · simp [crxRetryAux, h0, hc0, h1, hc1]
          · rcases h2 : download_crx (netc 2) with e2 | b2
            · cases hc2 : e2.isOSErrorFamily <;>
                simp [crxRetryAux, h0, hc0, h1, hc1, h2, hc2]
            · simp [crxRetryAux, h0, hc0, h1, hc1, h2]
        · simp [crxRetryAux, h0, hc0, h1]
    · simp [crxRetryAux, h0]
  · unfold download_xpi_with_retry
    rcases h0 : download_xpi_once (netx 0) with e0 | b0
    · cases hc0 : e0.isOSErrorFamily
      · simp [xpiRetryAux, h0, hc0]
      · rcases h1 : download_xpi_once (netx 1) with e1 | b1
        · cases hc1 : e1.isOSErrorFamily
          · simp [xpiRetryAux, h0, hc0, h1, hc1]
          · rcases h2 : download_xpi_once (netx 2) with e2 | b2
            · cases hc2 : e2.isOSErrorFamily <;>
                simp [xpiRetryAux, h0, hc0, h1, hc1, h2, hc2]
            · simp [xpiRetryAux, h0, hc0, h1, hc1, h2]
        · simp [xpiRetryAux, h0, hc0, h1]
    · simp [xpiRetryAux, h0]

/-- C5 witness: the schedules instantiated at the always-failing network. -/
theorem backoff_schedules_witness :
    (download_crx_with_retry netDownK).sleeps ∈ [([] : List Nat), [1], [1, 2]] ∧
      (download_xpi_with_retry netDownK).sleeps ∈ [([] : List Nat), [2], [2, 4]] :=
  backoff_schedules netDownK netDownK

/-! ## C6: inputs shorter than 12 bytes -/

/-- C6 counterexample: the empty input is shorter than 12 bytes, yet
`crx_to_zip` fails with the bad-magic error (the magic check runs first),
not with the file-too-short error the claim asserts. -/
theorem short_input_fails_magic_first :
    crx_to_zip [] = .error (.valueError "Invalid CRX file: missing Cr24 header") ∧
      crx_to_zip [] ≠ .error (.valueError "Invalid CRX file: file too short") ∧
      List.length ([] : List Nat) < 12 := by
  refine ⟨by decide, by decide, by decide⟩

/-- C6 amended: an input shorter than 12 bytes fails with the file-too-short
error precisely when its first 4 bytes are the `Cr24` magic; shorter inputs
not beginning with the magic fail with the bad-magic error first instead. -/
theorem short_cr24_input_truncated (crx : List Nat) (hl : crx.length < 12) :
    crx_to_zip crx = .error (.valueError "Invalid CRX file: file too short") ↔
      crx.take 4 = cr24magic := by
  unfold crx_to_zip
  by_cases hm : crx.take 4 = cr24magic
  · rw [if_neg (by simp [hm]), if_pos hl]
    simp [hm]
  · rw [if_pos hm]
    simp only [hm, iff_false]
    decide

/-- C6 witness: the bare 4-byte magic is shorter than 12 bytes and fails with
the file-too-short error. -/
theorem short_cr24_input_truncated_witness :
    cr24magic.length < 12 ∧
      (crx_to_zip cr24magic = .error (.valueError "Invalid CRX file: file too short") ↔
        cr24magic.take 4 = cr24magic) :=
  ⟨by decide, short_cr24_input_truncated cr24magic (by decide)⟩

/-! ## C7: the Chrome identifier validator -/

/-- C7 counterexample: a valid 32-character identifier followed by a newline
is accepted by the Chrome validator — Python `$` also matches just before a
single trailing newline — although its length deviates from 32. -/
theorem chrome_id_trailing_newline_accepted :
    validate_extension_id "aaaaaaaaaaaaaaaaaaaaaaaaaaaaaaaa\n" "chrome" = true ∧
      ("aaaaaaaaaaaaaaaaaaaaaaaaaaaaaaaa\n").length ≠ 32 := by
  refine ⟨by decide, by decide⟩

/-- C7 amended: the Chrome validator accepts a string exactly when it
consists of 32 characters from `[a-z0-9]`, or of such 32 characters followed
by one trailing newline (which Python `$` tolerates); every other deviation
in length or character class is rejected. -/
theorem chrome_validator_iff (s : String) :
    validate_extension_id s "chrome" = true ↔
      ((s.data.length = 32 ∧ ∀ c ∈ s.data, isLowerAlnum c = true) ∨
        (∃ t : List Char, s.data = t ++ ['\n'] ∧ t.length = 32 ∧
          ∀ c ∈ t, isLowerAlnum c = true)) := by
  unfold validate_extension_id
  rw [if_pos rfl]
  unfold reAtDollar chromeBody
  simp only [Bool.or_eq_true, Bool.and_eq_true, beq_iff_eq, List.all_eq_true]
  constructor
  · rintro (⟨h32, hall⟩ | ⟨hlast, h32, hall⟩)
    · exact Or.inl ⟨h32, hall⟩
    · refine Or.inr ?_
      rcases List.eq_nil_or_concat' s.data with hnil | ⟨t, a, hconcat⟩
      · rw [hnil] at hlast
        exact absurd hlast (by decide)
      · refine ⟨t, ?_, ?_, ?_⟩
        · rw [hconcat] at hlast ⊢
          rw [List.getLastD_concat] at hlast
          rw [hlast]
        · rw [hconcat, List.dropLast_concat] at h32
          exact h32
        · rw [hconcat, List.dropLast_concat] at hall
          exact hall
  · rintro (⟨h32, hall⟩ | ⟨t, hconcat, h32, hall⟩)
    · exact Or.inl ⟨h32, hall⟩
    · refine Or.inr ⟨?_, ?_, ?_⟩
      · rw [hconcat, List.getLastD_concat]
      · rw [hconcat, List.dropLast_concat]
        exact h32
      · rw [hconcat, List.dropLast_concat]
        exact hall

/-- C7 witness: the characterization instantiated at a concrete valid
identifier. -/
theorem chrome_validator_iff_witness :
    validate_extension_id "aaaaaaaaaaaaaaaaaaaaaaaaaaaaaaaa" "chrome" = true ↔
      ((("aaaaaaaaaaaaaaaaaaaaaaaaaaaaaaaa" : String).data.length = 32 ∧
          ∀ c ∈ ("aaaaaaaaaaaaaaaaaaaaaaaaaaaaaaaa" : String).data,
            isLowerAlnum c = true) ∨
        (∃ t : List Char,
          ("aaaaaaaaaaaaaaaaaaaaaaaaaaaaaaaa" : String).data = t ++ ['\n'] ∧
            t.length = 32 ∧ ∀ c ∈ t, isLowerAlnum c = true)) :=
  chrome_validator_iff "aaaaaaaaaaaaaaaaaaaaaaaaaaaaaaaa"

/-! ## C10: 429 handling in `fetch_firefox_addon_info` -/

/-- An addon-lookup network answering HTTP 429 on every attempt. -/
def net429L : Nat → Urlopen FxLatestBody := fun _ => .httpError 429

/-- A versions-listing network answering HTTP 429 on every attempt. -/
def net429V : Nat → Urlopen FxVersionsBody := fun _ => .httpError 429

/-- C10 counterexample: when every attempt receives HTTP 429, `urlopen`
raises `HTTPError` before the `resp.status == 429` branch can run, so the
generic except-clause retries with sleeps of 2 and 4 seconds (not three
5-second waits) and raises the `Failed to fetch ...` error (not
`Unreachable`), in both the latest-version and specific-version branches. -/
theorem rate_limit_counterexample :
    fetch_firefox_addon_info none net429L net429V =
      ⟨.error (.runtimeError "Failed to fetch addon info: HTTP Error 429"),
        [2, 4], 3⟩ ∧
      (fetch_firefox_addon_info none net429L net429V).sleeps ≠ [5, 5, 5] ∧
      (fetch_firefox_addon_info none net429L net429V).result ≠
        .error (.runtimeError "Unreachable") ∧
      fetch_firefox_addon_info (some "1.0") net429L net429V =
        ⟨.error (.runtimeError "Failed to fetch versions: HTTP Error 429"),
          [2, 4], 3⟩ := by
  refine ⟨by decide, by decide, by decide, by decide⟩

/-- C10 amended: a 429 response reaches the code as an `HTTPError` caught by
the same except-clause as transport errors, incrementing the same 3-attempt
counter; if every attempt receives 429, both branches raise
`RuntimeError("Failed to fetch ...: HTTP Error 429")` after two
exponential-backoff waits of 2 and 4 seconds; the in-loop 429 branch with
its 5-second waits and the trailing `Unreachable` raise are not exercised. -/
theorem rate_limit_via_except_clause (netL : Nat → Urlopen FxLatestBody)
    (netV : Nat → Urlopen FxVersionsBody) (v : String)
    (hL : ∀ k, k < 3 → netL k = .httpError 429)
    (hV : ∀ k, k < 3 → netV k = .httpError 429) :
    fetch_firefox_addon_info none netL netV =
      ⟨.error (.runtimeError "Failed to fetch addon info: HTTP Error 429"),
        [2, 4], 3⟩ ∧
      fetch_firefox_addon_info (some v) netL netV =
        ⟨.error (.runtimeError "Failed to fetch versions: HTTP Error 429"),
          [2, 4], 3⟩ := by
  have eL0 := hL 0 (by omega)
  have eL1 := hL 1 (by omega)
  have eL2 := hL 2 (by omega)
  have eV0 := hV 0 (by omega)
  have eV1 := hV 1 (by omega)
  have eV2 := hV 2 (by omega)
  constructor
  · simp only [fetch_firefox_addon_info, fxApiAux, eL0, eL1, eL2, Exc.str]
    decide
  · simp only [fetch_firefox_addon_info, fxApiAux, eV0, eV1, eV2, Exc.str]
    decide

/-- C10 witness: the constant-429 networks instantiate the amended claim. -/
theorem rate_limit_via_except_clause_witness :
    fetch_firefox_addon_info none net429L net429V =
      ⟨.error (.runtimeError "Failed to fetch addon info: HTTP Error 429"),
        [2, 4], 3⟩ ∧
      fetch_firefox_addon_info (some "2.0") net429L net429V =
        ⟨.error (.runtimeError "Failed to fetch versions: HTTP Error 429"),
          [2, 4], 3⟩ :=
  rate_limit_via_except_clause net429L net429V "2.0"
    (fun _ _ => rfl) (fun _ _ => rfl)

/-! ## C2: a failed pipeline writes nothing -/

/-- C2: in the Batch Driver's per-identifier step, if the
resolve/fetch/normalize pipeline raises, the write is never reached: the
filesystem and the write log are left exactly as they were for that
identifier (a write happens only after every preceding step succeeded). -/
theorem failed_pipeline_writes_nothing (args : Args) (e : Exc)
    (pipeline : Except Exc (List Nat)) (ext_id : String) (st : LoopState)
    (hfail : pipeline = .error e) :
    (downloadStep args pipeline ext_id st).1 = st := by
  subst hfail
  by_cases hv : validate_extension_id ext_id args.platform = true
  · by_cases hex :
      (st.fs.contains (outPathOf args.output ext_id) && !args.force) = true
    · by_cases hc : args.continue_on_error = true <;>
        simp [downloadStep, hv, hex, hc]
    · by_cases hc : args.continue_on_error = true <;>
        simp [downloadStep, hv, hex, hc]
  · by_cases hc : args.continue_on_error = true <;>
      simp [downloadStep, hv, hc]

/-- Arguments of a plain single-identifier Chrome run. -/
def wArgsC2 : Args := ⟨some "x", none, none, "chrome", false, none, false, false⟩

/-- A loop state that already has one file on disk and one logged write. -/
def wStC2 : LoopState := ⟨["have.zip"], [("have.zip", [1])]⟩

/-- C2 witness: a concrete failing pipeline leaves the concrete state
untouched. -/
theorem failed_pipeline_writes_nothing_witness :
    (downloadStep wArgsC2 (.error (.runtimeError "boom")) "id" wStC2).1 = wStC2 :=
  failed_pipeline_writes_nothing wArgsC2 (.runtimeError "boom")
    (.error (.runtimeError "boom")) "id" wStC2 rfl

/-! ## C8: output paths in batch mode -/

/-- A valid 32-character Chrome identifier. -/
def idA32 : String := "aaaaaaaaaaaaaaaaaaaaaaaaaaaaaaaa"

/-- A second, distinct valid 32-character Chrome identifier. -/
def idB32 : String := "bbbbbbbbbbbbbbbbbbbbbbbbbbbbbbbb"

/-- A minimal CRX whose embedded ZIP is the single byte `b`. -/
def crxWith (b : Nat) : List Nat := [0x43, 0x72, 0x32, 0x34, 3, 0, 0, 0, 0, 0, 0, 0, b]

/-- An oracle whose CRX download immediately delivers `crxWith b`. -/
def oracleFor (b : Nat) : IdOracle :=
  ⟨fun _ => ok200 (crxWith b), fun _ => .urlError "unused",
    fun _ => .urlError "unused", fun _ => .urlError "unused"⟩

/-- A two-identifier batch run with an explicit output path and `--force`. -/
def argsC8 : Args :=
  ⟨none, some "out.zip", none, "chrome", true, some (idA32 ++ "," ++ idB32),
    false, false⟩

/-- The world for the C8 run: empty filesystem, distinct payloads per id. -/
def worldC8 : World :=
  ⟨[], fun _ => none, .urlError "unused",
    fun i => if i = 0 then oracleFor 1 else oracleFor 2⟩

/-- C8 counterexample: with an explicit `-o out.zip` and `--force`, a batch
of two distinct identifiers runs to completion and both identifiers are
written to the same output file — the explicit path is not restricted to
single-identifier runs. -/
theorem explicit_output_shared_in_batch :
    main argsC8 worldC8 = ⟨0, [("out.zip", [1]), ("out.zip", [2])]⟩ ∧
      idA32 ≠ idB32 := by
  refine ⟨by decide, by decide⟩

/-- C8 amended: the Batch Driver applies a truthy explicit output path to
every identifier of a batch (so distinct identifiers in one batch share it);
only when no explicit path is given is each identifier's path derived as
`{identifier}.zip`, and those derived paths are distinct for distinct
identifiers. -/
theorem output_path_behavior (o : Option String) (p : String) (a b : String)
    (hne : a ≠ b) :
    (pyTruthy o = none → outPathOf o a ≠ outPathOf o b) ∧
      (pyTruthy o = some p → outPathOf o a = p ∧ outPathOf o b = p) := by
  constructor
  · intro hnone heq
    unfold outPathOf at heq
    rw [hnone] at heq
    apply hne
    apply String.ext
    have hdata : a.data ++ (".zip").data = b.data ++ (".zip").data :=
      congrArg String.data heq
    exact List.append_cancel_right hdata
  · intro hsome
    unfold outPathOf
    rw [hsome]
    exact ⟨rfl, rfl⟩

/-- C8 witness: instantiating the amended claim at the two identifiers of the
counterexample run, for both a truthy explicit path and the default. -/
theorem output_path_behavior_witness :
    (outPathOf none idA32 ≠ outPathOf none idB32) ∧
      (outPathOf (some "out.zip") idA32 = "out.zip" ∧
        outPathOf (some "out.zip") idB32 = "out.zip") :=
  ⟨(output_path_behavior none "out.zip" idA32 idB32 (by decide)).1 rfl,
    (output_path_behavior (some "out.zip") "out.zip" idA32 idB32 (by decide)).2 rfl⟩

/-! ## C9: process exit codes -/

/-- A firefox list-versions invocation with one identifier. -/
def argsLV : Args := ⟨some "someaddon", none, none, "firefox", false, none, false, true⟩

/-- A world whose versions request fails at transport level. -/
def worldLV : World :=
  ⟨[], fun _ => none, .urlError "network unreachable", fun _ => oracleFor 0⟩

/-- C9 counterexample: a failure during list-versions mode still exits 0:
the fetch error is caught, printed, and swallowed before the unconditional
`sys.exit(0)`. -/
theorem list_versions_failure_exits_zero :
    main argsLV worldLV = ⟨0, []⟩ ∧
      listVersionsFetch worldLV.lv = .error (.urlError "network unreachable") := by
  refine ⟨by decide, by decide⟩

/-- C9 amended: list-versions mode always exits 0 once past the
one-identifier check, even when the listing fails (the error is printed and
swallowed); exit 1 on a missing batch file, on absent input, on an invalid
identifier without continue-on-error, and on a pipeline failure without
continue-on-error; exit 0 with the output written on a successful
single-identifier run. -/
theorem exit_code_policy :
    (∀ (platform : String) (lv : Urlopen FxVersionsBody),
        listVersionsBranch platform lv = 0) ∧
      (∀ (args : Args) (w : World) (b : String), args.batch = some b → b ≠ "" →
        b.data.contains ',' = false → w.readBatch b = none →
        main args w = ⟨1, []⟩) ∧
      (∀ (args : Args) (w : World), args.batch = none →
        pyTruthy args.extension_id = none → main args w = ⟨1, []⟩) ∧
      (∀ (args : Args) (w : World) (e : String), args.batch = none →
        args.extension_id = some e → e ≠ "" → args.list_versions = false →
        validate_extension_id (pystrip e) args.platform = false →
        args.continue_on_error = false → main args w = ⟨1, []⟩) ∧
      (∀ (args : Args) (w : World) (e : String) (exc : Exc), args.batch = none →
        args.extension_id = some e → e ≠ "" → args.list_versions = false →
        validate_extension_id (pystrip e) args.platform = true →
        w.fs0.contains (outPathOf args.output (pystrip e)) = false →
        runPipeline args (w.oracles 0) = .error exc →
        args.continue_on_error = false → main args w = ⟨1, []⟩) ∧
      (∀ (args : Args) (w : World) (e : String) (bytes : List Nat),
        args.batch = none → args.extension_id = some e → e ≠ "" →
        args.list_versions = false →
        validate_extension_id (pystrip e) args.platform = true →
        w.fs0.contains (outPathOf args.output (pystrip e)) = false →
        runPipeline args (w.oracles 0) = .ok bytes →
        main args w = ⟨0, [(outPathOf args.output (pystrip e), bytes)]⟩) := by
  refine ⟨?_, ?_, ?_, ?_, ?_, ?_⟩
  · intro platform lv
    unfold listVersionsBranch
    split
    · cases hfetch : listVersionsFetch lv <;> simp [hfetch]
    · rfl
  · intro args w b hb hbne hnc hrb
    unfold main parseIds
    rw [hb]
    simp only [pyTruthy, if_neg hbne, hnc]
    rw [hrb]
    rfl
  · intro args w hb hpt
    unfold main parseIds
    rw [hb, hpt]
    rfl
  · intro args w e hb he hene hlvf hval hcont
    simp [main, parseIds, pyTruthy, mainLoop, downloadStep,
      hb, he, hene, hlvf, hval, hcont]
  · intro args w e exc hb he hene hlvf hval hfs hpipe hcont
    simp [main, parseIds, pyTruthy, mainLoop, downloadStep,
      hb, he, hene, hlvf, hval, hfs, hpipe, hcont]
  · intro args w e bytes hb he hene hlvf hval hfs hpipe
    have hfs' : outPathOf args.output (pystrip e) ∉ w.fs0 := by simpa using hfs
    simp [main, parseIds, pyTruthy, mainLoop, downloadStep,
      hb, he, hene, hlvf, hval, hfs', hpipe]

/-- Arguments naming a batch file that does not exist. -/
def argsMissingBatch : Args :=
  ⟨none, none, none, "chrome", false, some "ids.txt", false, false⟩

/-- A world with an empty filesystem and no readable batch file. -/
def worldEmpty : World := ⟨[], fun _ => none, .urlError "x", fun _ => oracleFor 0⟩

/-- Arguments with neither a positional identifier nor a batch. -/
def argsNoInput : Args := ⟨none, none, none, "chrome", false, none, false, false⟩

/-- Arguments with a syntactically invalid Chrome identifier. -/
def argsBadId : Args := ⟨some "short", none, none, "chrome", false, none, false, false⟩

/-- Arguments with a valid Chrome identifier and default options. -/
def argsGoodId : Args := ⟨some idA32, none, none, "chrome", false, none, false, false⟩

/-- A world whose CRX network is down on every attempt. -/
def worldCrxDown : World :=
  ⟨[], fun _ => none, .urlError "x",
    fun _ => ⟨netDownX, fun _ => .urlError "u", fun _ => .urlError "u",
      fun _ => .urlError "u"⟩⟩

/-- A world whose CRX network delivers a well-formed package. -/
def worldCrxOk : World := ⟨[], fun _ => none, .urlError "x", fun _ => oracleFor 1⟩

/-- C9 witness: concrete runs exercising every case of the amended claim. -/
theorem exit_code_policy_witness :
    listVersionsBranch "firefox" (.urlError "x") = 0 ∧
      main argsMissingBatch worldEmpty = ⟨1, []⟩ ∧
      main argsNoInput worldEmpty = ⟨1, []⟩ ∧
      main argsBadId worldEmpty = ⟨1, []⟩ ∧
      main argsGoodId worldCrxDown = ⟨1, []⟩ ∧
      main argsGoodId worldCrxOk = ⟨0, [(idA32 ++ ".zip", [1])]⟩ :=
  ⟨exit_code_policy.1 "firefox" (.urlError "x"),
    exit_code_policy.2.1 argsMissingBatch worldEmpty "ids.txt" rfl (by decide)
      (by decide) rfl,
    exit_code_policy.2.2.1 argsNoInput worldEmpty rfl rfl,
    exit_code_policy.2.2.2.1 argsBadId worldEmpty "short" rfl rfl (by decide)
      rfl (by decide) rfl,
    exit_code_policy.2.2.2.2.1 argsGoodId worldCrxDown idA32
      (.runtimeError "Failed to download after 3 attempts: connection refused")
      rfl rfl (by decide) rfl (by decide) rfl (by decide) rfl,
    exit_code_policy.2.2.2.2.2 argsGoodId worldCrxOk idA32 [1]
      rfl rfl (by decide) rfl (by decide) rfl (by decide)⟩

end AddonGrab
